import Mathlib

/-!
Shallow embedding of the TourGenious backend (`backend/server.js`) for the
properties under scrutiny: the translation orchestrator (`POST /api/translate`),
the assistant orchestrator (`POST /api/chatbot`), the chatbot rate limiter and
provider-cooldown state, and the place-discovery orchestrator
(`POST /api/places/nearby`).

Modelling conventions:
- JavaScript timestamps (`Date.now()`) are natural numbers of milliseconds.
- JSON bodies are structures of `Option` fields; an absent field is `none`.
  JavaScript truthiness on a string field (`!text`) is `truthyOS`; on a numeric
  field (`!latitude`, `radius || 5000`) it is `truthyON` / `jsNumOr`, under
  which `0` and the empty string are falsy exactly as in JavaScript.
- Each networked provider call is an `Attempt`: either an HTTP-level failure
  (with the optional `error.response.status` the catch blocks inspect) or a
  2xx response carrying the optional text field the code reads (`Option`,
  since the handlers test the field for truthiness before using it).
- `String.toLowerCase` is modelled on the ASCII range (`Char.toLower`); every
  string the claims evaluate it on is ASCII.
- The trigonometric haversine evaluation and `response.timestamp` are
  floating-point / wall-clock values; the haversine is an oracle parameter
  (`hav`) of the place handler, since the claims constrain only the
  rounding / filter / sort / cap stages that follow it.
-/

/-- JavaScript truthiness of an optional string field: absent and `""` are falsy. -/
def truthyOS : Option String → Bool
  | some s => !s.isEmpty
  | none => false

/-- JavaScript truthiness of an optional numeric field: absent and `0` are falsy. -/
def truthyON : Option ℚ → Bool
  | some x => !(x = 0 : Bool)
  | none => false

/-- JavaScript `a || b` for a numeric field `a` (`radius || 5000`, `element.lat || …`). -/
def jsNumOr (a : Option ℚ) (b : ℚ) : ℚ :=
  match a with
  | some x => if x = 0 then b else x
  | none => b

/-- JavaScript `a || b` for optional string expressions (`tags.phone || tags[...]`). -/
def jsStrOr (a b : Option String) : Option String :=
  match a with
  | some s => if s.isEmpty then b else some s
  | none => b

/-- JavaScript `String.prototype.includes`: substring containment. -/
def containsSub (hay needle : String) : Bool :=
  decide (needle.data <:+: hay.data)

/-- JavaScript `String.prototype.toLowerCase`, on the ASCII range. -/
def lowerStr (s : String) : String :=
  String.mk (s.data.map Char.toLower)

/-- JavaScript `Array.prototype.join(' ')`. -/
def joinSp : List String → String
  | [] => ""
  | [a] => a
  | a :: rest => a ++ " " ++ joinSp rest

/-- Helper for `splitWs`: walks the characters, cutting at each maximal
whitespace run (the behaviour of `text.split(/\s+/)`, boundary empty fields
included). -/
def splitWsAux : List Char → List Char → List String
  | [], acc => [String.mk acc.reverse]
  | c :: cs, acc =>
    if c.isWhitespace then
      String.mk acc.reverse :: splitWsAux (cs.dropWhile Char.isWhitespace) []
    else
      splitWsAux cs (c :: acc)
termination_by l _ => l.length
decreasing_by
  · exact Nat.lt_succ_of_le (List.dropWhile_sublist _).length_le
  · exact Nat.lt_succ_self _

/-- JavaScript `text.split(/\s+/)`. -/
def splitWs (s : String) : List String :=
  splitWsAux s.data []

/-- Outcome of one networked provider call, as observed by the handlers:
`ok content` is a 2xx response whose relevant text field is `content`
(`none` when the field is missing), `fail status` is a thrown error carrying
`error.response?.status`. -/
inductive Attempt where
  | ok (content : Option String)
  | fail (status : Option Nat)
deriving DecidableEq

/-- An attempt that yields no usable text: an error, or a response whose text
field is missing or empty (the handlers test the field for truthiness and
treat absence as failure). -/
def Attempt.failed : Attempt → Bool
  | .ok c => !truthyOS c
  | .fail _ => true

/-- The `error?.response?.status` the enclosing catch block observes when this
attempt did not produce a usable response (an `ok` without usable content is
rethrown as a plain `Error`, which has no `response`). -/
def Attempt.errStatus : Attempt → Option Nat
  | .ok _ => none
  | .fail s => s

/-- One JSON API response. Every endpoint's `res.json(...)` payload is an
instance of this structure; a JSON key the payload does not carry is `none`. -/
structure ApiResponse where
  status : Nat := 200
  error : Option String := none
  success : Option Bool := none
  originalText : Option String := none
  translatedText : Option String := none
  fromLanguage : Option String := none
  toLanguage : Option String := none
  message : Option String := none
  context : Option String := none
  provider : Option String := none
  fallback : Option Bool := none
  rateLimited : Option Bool := none
  retryAfterMs : Option Nat := none
  windowMs : Option Nat := none
  details : Option String := none
deriving DecidableEq

/-! ### Offline chatbot fallback (`generateOfflineChatbotResponse`, server.js 29-57) -/

def beachBucketText : String :=
  "Top Goa beaches: Baga (nightlife), Calangute (water sports), Anjuna (sunsets), Palolem (peaceful). Go early for parking and bring cash for shacks."

def hotelBucketText : String :=
  "For stays: North Goa = nightlife (Baga/Calangute), Candolim/Sinquerim = quieter, Anjuna/Vagator = cafes. South Goa = peaceful (Palolem/Agonda/Colva). Book via TourGenious lodging to see verified listings."

def weatherBucketText : String :=
  "Goa weather: Oct-Feb pleasant (22-32°C), Mar-May hot (30-36°C), Jun-Sep monsoon. Keep a light rain jacket in monsoon and book refundable stays."

def foodBucketText : String :=
  "Try Goan dishes: Fish thali, Cafreal, Xacuti, Vindaloo, Bebinca dessert. Ask shacks for today’s fresh catch; avoid plastic waste on beaches."

def transportBucketText : String :=
  "Getting around: Scooters are fastest for short hops; carry license and helmet. For airport → hotel, pre-book a taxi. Avoid late-night isolated rides; share live location."

def emergencyBucketText : String :=
  "Emergency: Dial 112 for police/medical. Keep a copy of your ID. In TourGenious, open Smart Assist → Emergency for quick contacts and location sharing."

def offlineDefaultText : String :=
  "I am your Goa Tourism assistant. Ask me about beaches, stays, food, transport, weather, or how to use TourGenious features (booking, translator, smart assist)."

/-- The keyword buckets pushed onto `canned`, in source order. -/
def offlineBuckets (lower : String) : List String :=
  (if containsSub lower "beach" then [beachBucketText] else []) ++
  (if containsSub lower "hotel" || containsSub lower "stay" || containsSub lower "resort" then
    [hotelBucketText] else []) ++
  (if containsSub lower "weather" then [weatherBucketText] else []) ++
  (if containsSub lower "food" || containsSub lower "restaurant" || containsSub lower "eat" then
    [foodBucketText] else []) ++
  (if containsSub lower "transport" || containsSub lower "taxi" || containsSub lower "cab" ||
      containsSub lower "scooter" then [transportBucketText] else []) ++
  (if containsSub lower "emergency" || containsSub lower "help" then
    [emergencyBucketText] else [])

/-- `generateOfflineChatbotResponse` (server.js 29-57). -/
def generateOfflineChatbotResponse (message : String) : String :=
  let lower := lowerStr message
  let canned := offlineBuckets lower
  joinSp (if canned.isEmpty then [offlineDefaultText] else canned)

/-! ### Chatbot rate limiter (server.js 80-111) -/

def CHATBOT_WINDOW_MS : Nat := 60 * 1000

def CHATBOT_MAX_REQUESTS : Nat := 50

def CHATBOT_PROVIDER_COOLDOWN_MS : Nat := 1 * 1000

/-- One value of `chatbotRateLimitStore`: `{ count, resetAt }`. -/
structure RateLimitEntry where
  count : Nat
  resetAt : Nat
deriving DecidableEq

/-- The in-memory `Map` keyed by client identity. -/
abbrev RateLimitStore := List (String × RateLimitEntry)

def storeGet (s : RateLimitStore) (k : String) : Option RateLimitEntry :=
  (s.find? (fun p => p.1 = k)).map (·.2)

def storeSet (s : RateLimitStore) (k : String) (e : RateLimitEntry) : RateLimitStore :=
  (k, e) :: s.filter (fun p => ¬ p.1 = k)

/-- Outcome of the `chatbotRateLimiter` middleware for one request: either the
request proceeds (`next()`), or it is answered directly with the 429 payload. -/
inductive RateLimitResult where
  | allowed
  | denied (retryAfterMs : Nat) (windowMs : Nat)
deriving DecidableEq

/-- `chatbotRateLimiter` (server.js 89-111): resolves the entry for `key`
(fresh when absent or when `now > resetAt`), denies with
`retryAfterMs = max(resetAt - now, 0)` when the count has reached the quota,
and otherwise increments the count and admits the request. Natural-number
subtraction realises the `max(…, 0)`. -/
def chatbotRateLimiter (store : RateLimitStore) (key : String) (now : Nat) :
    RateLimitResult × RateLimitStore :=
  let fresh : RateLimitEntry := { count := 0, resetAt := now + CHATBOT_WINDOW_MS }
  let resolved : RateLimitEntry × RateLimitStore :=
    match storeGet store key with
    | some e => if now > e.resetAt then (fresh, storeSet store key fresh) else (e, store)
    | none => (fresh, storeSet store key fresh)
  let entry := resolved.1
  let store1 := resolved.2
  if entry.count ≥ CHATBOT_MAX_REQUESTS then
    (.denied (entry.resetAt - now) CHATBOT_WINDOW_MS, store1)
  else
    (.allowed, storeSet store1 key { count := entry.count + 1, resetAt := entry.resetAt })

/-- The 429 payload the limiter sends on denial (server.js 101-106). -/
def rateLimitDeniedResponse (retryAfterMs : Nat) : ApiResponse :=
  { status := 429
    error := some "Too many requests to chatbot. Please try again shortly."
    rateLimited := some true
    retryAfterMs := some retryAfterMs
    windowMs := some CHATBOT_WINDOW_MS }

/-- Runs the limiter over a sequence of request times for one key, collecting
each request's outcome and the final store. -/
def runCalls : List Nat → String → RateLimitStore → List RateLimitResult × RateLimitStore
  | [], _, store => ([], store)
  | t :: ts, key, store =>
    let step := chatbotRateLimiter store key t
    let rest := runCalls ts key step.2
    (step.1 :: rest.1, rest.2)

/-! ### Assistant orchestrator (`POST /api/chatbot`, server.js 582-736) -/

/-- External world of the chatbot handler: whether `OPENROUTER_API_KEY` is
configured, the resolved `OPENROUTER_DEFAULT_MODEL`, and the outcome each
provider call would produce if performed. -/
structure ChatbotEnv where
  openrouterKey : Bool
  orModel : String
  orPrimary : Attempt
  gemini : Attempt
  orFree : Attempt

/-- Condition guarding the tertiary free-model try in the catch block:
`providerStatus === 429 || providerStatus >= 500` (an `undefined` status
compares false). -/
def retryableStatus : Option Nat → Bool
  | some s => s == 429 || s ≥ 500
  | none => false

/-- The successful chatbot payload (server.js 631-637, 661, 700-706). -/
def chatbotSuccessResponse (message ctx provider : String) : ApiResponse :=
  { status := 200
    success := some true
    message := some message
    context := some ctx
    provider := some provider }

/-- The offline-fallback chatbot payload (server.js 726-734). -/
def chatbotFallbackResponse (msg ctx : String) (providerStatus : Option Nat) : ApiResponse :=
  { status := 200
    success := some true
    message := some (generateOfflineChatbotResponse msg)
    context := some ctx
    fallback := some true
    rateLimited := some (providerStatus == some 429)
    provider := some "offline-goa-guide" }

/-- The catch block of the chatbot handler (server.js 665-735): given the
status observed on the error, optionally try the free OpenRouter model, set
the provider cooldown on a 429, and otherwise fall back to the offline guide.
Returns the response, the new `chatbotProviderCooldownUntil`, and the list of
providers contacted inside the catch block. -/
def chatbotCatch (env : ChatbotEnv) (msg ctx : String) (providerStatus : Option Nat)
    (now : Nat) : ApiResponse × Nat × List String :=
  let freeStep : Option String × List String :=
    if retryableStatus providerStatus && env.openrouterKey then
      match env.orFree with
      | .ok c => (if truthyOS c then some ((c.getD "").trim) else none, ["openrouter-free"])
      | .fail _ => (none, ["openrouter-free"])
    else (none, [])
  match freeStep.1 with
  | some text => (chatbotSuccessResponse text ctx "openrouter-llama-free", 0, freeStep.2)
  | none =>
    let cooldown := if providerStatus == some 429 then now + CHATBOT_PROVIDER_COOLDOWN_MS else 0
    (chatbotFallbackResponse msg ctx providerStatus, cooldown, freeStep.2)

/-- The `POST /api/chatbot` handler (server.js 583-736). Control flow: missing
`message` answers 400 at once; otherwise `chatbotProviderCooldownUntil` is
reset to `0` (source comments: "Reset cooldown for testing" /
"Cooldown check removed - always try API"), then the primary OpenRouter model
(when a key is configured), then Gemini, are attempted; Gemini failures reach
the catch block with the observed status. Returns the response, the new
cooldown timestamp, and the providers contacted by a networked call. The
incoming `cooldown0` is the current `chatbotProviderCooldownUntil`; note the
handler never reads it. -/
def handleChatbot (env : ChatbotEnv) (message ctx : Option String) (now cooldown0 : Nat) :
    ApiResponse × Nat × List String :=
  if !truthyOS message then
    ({ status := 400, error := some "Message is required" }, cooldown0, [])
  else
    let msg := message.getD ""
    let context := ctx.getD "travel"
    let primary : Option String × List String :=
      if env.openrouterKey then
        match env.orPrimary with
        | .ok c => (if truthyOS c then some ((c.getD "").trim) else none, ["openrouter-primary"])
        | .fail _ => (none, ["openrouter-primary"])
      else (none, [])
    match primary.1 with
    | some text =>
      (chatbotSuccessResponse text context ("openrouter:" ++ env.orModel), 0, primary.2)
    | none =>
      let contacted := primary.2 ++ ["gemini"]
      match env.gemini with
      | .ok c =>
        if truthyOS c then
          (chatbotSuccessResponse ((c.getD "").trim) context "gemini-1.5-flash", 0, contacted)
        else
          let r := chatbotCatch env msg context none now
          (r.1, r.2.1, contacted ++ r.2.2)
      | .fail s =>
        let r := chatbotCatch env msg context s now
        (r.1, r.2.1, contacted ++ r.2.2)

/-- The `/api/chatbot` route as registered (server.js 583): the handler alone.
The `chatbotRateLimiter` middleware is not installed (source comment:
"Chatbot API endpoint (removed rate limiter for testing)"), so the rate-limit
store is passed through untouched and no request is ever denied with 429. -/
def chatbotRoute (env : ChatbotEnv) (message ctx : Option String) (now cooldown0 : Nat)
    (store : RateLimitStore) : ApiResponse × Nat × RateLimitStore × List String :=
  let r := handleChatbot env message ctx now cooldown0
  (r.1, r.2.1, store, r.2.2)

/-! ### Translation orchestrator (`POST /api/translate`, server.js 123-488)

The `fallbackTranslations` object literal (server.js 253-419), one association
list per language-pair key, in first-insertion key order. The source literal
repeats six keys per map under a "Quick phrases from UI" comment with values
identical to the first occurrence, so the JavaScript object (last duplicate
wins, first-insertion enumeration order) is exactly this deduplicated list. -/

def fallbackTranslationsEnglishHindi : List (String × String) :=
  [("Hello", "नमस्ते"),
   ("Hi", "नमस्ते"),
   ("How are you?", "आप कैसे हैं?"),
   ("What is your name?", "आपका नाम क्या है?"),
   ("what is your name", "आपका नाम क्या है"),
   ("What is your name", "आपका नाम क्या है"),
   ("My name is", "मेरा नाम है"),
   ("Nice to meet you", "आपसे मिलकर खुशी हुई"),
   ("Thank you", "धन्यवाद"),
   ("Thanks", "धन्यवाद"),
   ("Good morning", "सुप्रभात"),
   ("Good afternoon", "नमस्ते"),
   ("Good evening", "शुभ संध्या"),
   ("Good night", "शुभ रात्रि"),
   ("Welcome", "स्वागत है"),
   ("Please", "कृपया"),
   ("Sorry", "माफ़ कीजिए"),
   ("Excuse me", "माफ़ करें"),
   ("Yes", "हाँ"),
   ("No", "नहीं"),
   ("Where is", "कहाँ है"),
   ("Where are you from?", "आप कहाँ से हैं?"),
   ("How much", "कितना"),
   ("How old are you?", "आपकी उम्र क्या है?"),
   ("I love you", "मैं तुमसे प्यार करता हूँ"),
   ("Beautiful", "सुंदर"),
   ("Delicious", "स्वादिष्ट"),
   ("Help", "मदद"),
   ("Water", "पानी"),
   ("Food", "खाना"),
   ("Beach", "समुद्र तट"),
   ("Hotel", "होटल"),
   ("Airport", "हवाई अड्डा"),
   ("Station", "स्टेशन"),
   ("Hospital", "अस्पताल"),
   ("Police", "पुलिस"),
   ("Market", "बाज़ार"),
   ("Restaurant", "रेस्टोरेंट"),
   ("Taxi", "टैक्सी"),
   ("Bus", "बस"),
   ("Train", "रेल"),
   ("Money", "पैसा"),
   ("Time", "समय"),
   ("Today", "आज"),
   ("Tomorrow", "कल"),
   ("Yesterday", "कल (बीता हुआ)")]

def fallbackTranslationsEnglishKonkani : List (String × String) :=
  [("Hello", "नमस्कार"),
   ("Hi", "नमस्कार"),
   ("How are you?", "तुमी कशे आसात?"),
   ("What is your name?", "तुझे नांव कितें?"),
   ("what is your name", "तुझे नांव कितें"),
   ("What is your name", "तुझे नांव कितें"),
   ("My name is", "म्हजे नांव"),
   ("Nice to meet you", "तुका भेटून बरे दिसले"),
   ("Thank you", "धन्यवाद"),
   ("Thanks", "धन्यवाद"),
   ("Good morning", "सुप्रभात"),
   ("Good afternoon", "दनपारां बरे"),
   ("Good evening", "सांजे बरे"),
   ("Good night", "शुभ रात्रि"),
   ("Welcome", "स्वागत"),
   ("Please", "कृपया"),
   ("Sorry", "माफ करात"),
   ("Excuse me", "माफ करात"),
   ("Yes", "हांय"),
   ("No", "ना"),
   ("Where is", "कुत्र आसा"),
   ("Where are you from?", "तूं कुत्रां"),
   ("How much", "किती"),
   ("How old are you?", "तुझे वर्स किती?"),
   ("I love you", "हांव तुका मोग करतां"),
   ("Beautiful", "सुंदर"),
   ("Delicious", "रुचीक"),
   ("Help", "आदार"),
   ("Water", "उदक"),
   ("Food", "जेवण"),
   ("Beach", "किनारो"),
   ("Hotel", "धर्मशाळा"),
   ("Airport", "विमानतळ"),
   ("Station", "स्थानक"),
   ("Hospital", "रुग्णालय"),
   ("Police", "पोलीस"),
   ("Market", "बाजार"),
   ("Restaurant", "जेवणघर"),
   ("Taxi", "टॅक्सी"),
   ("Bus", "बस"),
   ("Train", "रेल्व"),
   ("Money", "पैसे"),
   ("Time", "वेळ"),
   ("Today", "आयज"),
   ("Tomorrow", "फाल्यां"),
   ("Yesterday", "काल")]

def fallbackTranslationsEnglishMarathi : List (String × String) :=
  [("Hello", "नमस्कार"),
   ("Hi", "नमस्कार"),
   ("How are you?", "तुम्ही कसे आहात?"),
   ("What is your name?", "तुमचे नाव काय?"),
   ("what is your name", "तुमचे नाव काय"),
   ("What is your name", "तुमचे नाव काय"),
   ("My name is", "माझे नाव"),
   ("Nice to meet you", "तुम्हाला भेटून आनंद झाला"),
   ("Thank you", "धन्यवाद"),
   ("Thanks", "धन्यवाद"),
   ("Good morning", "सुप्रभात"),
   ("Good afternoon", "नमस्कार"),
   ("Good evening", "शुभ संध्या"),
   ("Good night", "शुभ रात्रि"),
   ("Welcome", "स्वागत आहे"),
   ("Please", "कृपया"),
   ("Sorry", "माफ करा"),
   ("Excuse me", "माफ करा"),
   ("Yes", "होय"),
   ("No", "नाही"),
   ("Where is", "कुठे आहे"),
   ("Where are you from?", "तुम्ही कुठचे आहात?"),
   ("How much", "किती"),
   ("How old are you?", "तुमचे वय किती?"),
   ("I love you", "मी तुझ्यावर प्रेम करतो"),
   ("Beautiful", "सुंदर"),
   ("Delicious", "चविष्ट"),
   ("Help", "मदत"),
   ("Water", "पाणी"),
   ("Food", "अन्न"),
   ("Beach", "समुद्रकिनारा"),
   ("Hotel", "हॉटेल"),
   ("Airport", "विमानतळ"),
   ("Station", "स्थानक"),
   ("Hospital", "रुग्णालय"),
   ("Police", "पोलीस"),
   ("Market", "बाजार"),
   ("Restaurant", "जेवणघर"),
   ("Taxi", "टॅक्सी"),
   ("Bus", "बस"),
   ("Train", "रेल्वे"),
   ("Money", "पैसे"),
   ("Time", "वेळ"),
   ("Today", "आज"),
   ("Tomorrow", "उद्या"),
   ("Yesterday", "काल")]

/-- `fallbackTranslations[key]` (server.js 425). -/
def fallbackTranslationsFor : String → Option (List (String × String))
  | "English-Hindi" => some fallbackTranslationsEnglishHindi
  | "English-Konkani" => some fallbackTranslationsEnglishKonkani
  | "English-Marathi" => some fallbackTranslationsEnglishMarathi
  | _ => none

/-- JavaScript property read `m[k]` followed by a truthiness test: `some v`
exactly when the key is present with a truthy (non-empty) value. -/
def jsLookup (m : List (String × String)) (k : String) : Option String :=
  match m.find? (fun p => p.1 = k) with
  | some p => if p.2.isEmpty then none else some p.2
  | none => none

/-- One step of the word-by-word loop (server.js 445-469): the pattern table
for the language pair is consulted first (`patterns && patterns[word]`,
a truthiness test); otherwise the first dictionary key related to the word by
substring containment supplies its value. The Bool records whether the word
contributed to `hasTranslations`. -/
def wordTranslate (tpats : String → String → Option String)
    (m : List (String × String)) (key word : String) : String × Bool :=
  match tpats key word with
  | some v =>
    if v.isEmpty then wordDictLookup m word else (v, true)
  | none => wordDictLookup m word
where
  /-- `Object.keys(translationMap).find(key => key.toLowerCase().includes(word)
  || word.includes(key.toLowerCase()))`, then `if (foundKey)` (server.js
  457-465). -/
  wordDictLookup (m : List (String × String)) (word : String) : String × Bool :=
    match m.find? (fun p =>
        containsSub (lowerStr p.1) word || containsSub word (lowerStr p.1)) with
    | some p => if p.1.isEmpty then (word, false) else (p.2, true)
    | none => (word, false)

/-- The enhanced fallback translation logic (server.js 421-476): exact match,
then case-insensitive key match, then word-by-word substitution, else the
original text. `tpats` is the `translationPatterns` table; see
`TranslateEnv.tpats`. -/
def fallbackTranslate (tpats : String → String → Option String)
    (fromLanguage toLanguage text : String) : String :=
  let key := fromLanguage ++ "-" ++ toLanguage
  match fallbackTranslationsFor key with
  | none => text
  | some m =>
    match jsLookup m text with
    | some v => v
    | none =>
      let lowerText := lowerStr text
      match m.find? (fun p => lowerStr p.1 = lowerText) with
      | some p => if p.1.isEmpty then wordPhase tpats m key text else p.2
      | none => wordPhase tpats m key text
where
  /-- The word-by-word branch (server.js 440-474). -/
  wordPhase (tpats : String → String → Option String) (m : List (String × String))
      (key text : String) : String :=
    let results := (splitWs (lowerStr text)).map (wordTranslate tpats m key)
    if results.any (·.2) then joinSp (results.map (·.1)) else text

/-- External world of the translate handler: the outcome of each provider
call, the OpenRouter configuration, and the `translationPatterns` table.

Modelled from the spec: the `translationPatterns` module required at
server.js 6 is not part of the sources; §6 describes it as "a static
phrase/pattern dictionary keyed by ordered language-pair name and lowercase
source word" with no fixed contents, so it is carried here as an abstract
table (language-pair key → lowercase word → optional replacement). -/
structure TranslateEnv where
  google : Attempt
  openrouterKey : Bool
  orModel : String
  openrouter : Attempt
  libre : Attempt
  mymemory : Attempt
  tpats : String → String → Option String

/-- The successful translation payload (server.js 153-160 and the analogous
provider-success payloads). -/
def translateSuccessResponse (text translated fromL toL provider : String) : ApiResponse :=
  { status := 200
    success := some true
    originalText := some text
    translatedText := some translated
    fromLanguage := some fromL
    toLanguage := some toL
    provider := some provider }

/-- The flagged-fallback payload of the translate handler (server.js 478-486),
paired with the `chatbotProviderCooldownUntil` update performed just before it
(server.js 245-250). -/
def translateFallbackResponse (tpats : String → String → Option String)
    (text fromL toL : String) (providerStatus : Option Nat) (now cooldown0 : Nat) :
    ApiResponse × Nat :=
  let cooldown :=
    if providerStatus == some 429 then now + CHATBOT_PROVIDER_COOLDOWN_MS else cooldown0
  ({ status := 200
     success := some true
     originalText := some text
     translatedText := some (fallbackTranslate tpats fromL toL text)
     fromLanguage := some fromL
     toLanguage := some toL
     fallback := some true
     message := some (if providerStatus == some 429 then
       "Rate limited. Using fallback translation." else "Using fallback translation") },
   cooldown)

/-- The `POST /api/translate` handler (server.js 123-488). Control flow:
missing `text`/`fromLanguage`/`toLanguage` answers 400; then the free Google
API, then (when a key is configured) OpenRouter, then LibreTranslate, then
MyMemory, each accepted only when its text field is truthy; when all fail the
offline fallback answers with `fallback: true`, setting the shared cooldown
when the original error was a 429. Returns the response and the new
`chatbotProviderCooldownUntil`. -/
def handleTranslate (env : TranslateEnv) (text fromLanguage toLanguage : Option String)
    (now cooldown0 : Nat) : ApiResponse × Nat :=
  if !(truthyOS text && truthyOS fromLanguage && truthyOS toLanguage) then
    ({ status := 400
       error := some "Missing required parameters: text, fromLanguage, toLanguage" },
     cooldown0)
  else
    let t := text.getD ""
    let fromL := fromLanguage.getD ""
    let toL := toLanguage.getD ""
    match env.google with
    | .ok c =>
      if truthyOS c then
        (translateSuccessResponse t ((c.getD "").trim) fromL toL "google-translate-ai",
         cooldown0)
      else translateBackups env t fromL toL none now cooldown0
    | .fail s => translateBackups env t fromL toL s now cooldown0
where
  /-- The catch block (server.js 165-487): OpenRouter, LibreTranslate,
  MyMemory, then the offline fallback. -/
  translateBackups (env : TranslateEnv) (t fromL toL : String)
      (providerStatus : Option Nat) (now cooldown0 : Nat) : ApiResponse × Nat :=
    let orStep : Option String :=
      if env.openrouterKey then
        match env.openrouter with
        | .ok c => if truthyOS c then some ((c.getD "").trim) else none
        | .fail _ => none
      else none
    match orStep with
    | some v =>
      (translateSuccessResponse t v fromL toL ("openrouter:" ++ env.orModel), cooldown0)
    | none =>
      let libreStep : Option String :=
        match env.libre with
        | .ok c => if truthyOS c then some ((c.getD "").trim) else none
        | .fail _ => none
      match libreStep with
      | some v => (translateSuccessResponse t v fromL toL "libretranslate", cooldown0)
      | none =>
        let mmStep : Option String :=
          match env.mymemory with
          | .ok c => if truthyOS c then some ((c.getD "").trim) else none
          | .fail _ => none
        match mmStep with
        | some v => (translateSuccessResponse t v fromL toL "mymemory", cooldown0)
        | none => translateFallbackResponse env.tpats t fromL toL providerStatus now cooldown0

/-! ### Place discovery (`POST /api/places/nearby`, server.js 739-877) -/

/-- The OSM tags the handler reads from an element. -/
structure OsmTags where
  name : Option String := none
  amenity : Option String := none
  tourism : Option String := none
  shop : Option String := none
  addrStreet : Option String := none
  addrHousenumber : Option String := none
  addrCity : Option String := none
  phone : Option String := none
  contactPhone : Option String := none
  website : Option String := none
  contactWebsite : Option String := none
  openingHours : Option String := none
deriving DecidableEq

/-- One element of `response.data.elements`. -/
structure OsmElement where
  id : Int
  lat : Option ℚ := none
  lon : Option ℚ := none
  center : Option (ℚ × ℚ) := none
  tags : Option OsmTags := none
deriving DecidableEq

/-- The body of a successful Overpass response: `response.data.elements`
when present (`some []` is an empty but present array). -/
structure OverpassResp where
  elements : Option (List OsmElement)
deriving DecidableEq

/-- One entry of the `places` array the handler builds (server.js 833-846). -/
structure Place where
  id : String
  name : String
  category : String
  distance : ℚ
  address : String
  lat : ℚ
  lon : ℚ
  phone : Option String := none
  website : Option String := none
  openingHours : Option String := none
deriving DecidableEq

/-- `Math.round(distance * 10) / 10` (server.js 837): `round` on ℚ is
`⌊x + 1/2⌋`, which agrees with `Math.round` (half towards +∞). -/
def roundTenth (d : ℚ) : ℚ :=
  (round (d * 10) : ℤ) / 10

/-- `element.tags && element.tags.name` (server.js 811). -/
def hasNameTag (e : OsmElement) : Bool :=
  match e.tags with
  | some t => truthyOS t.name
  | none => false

/-- The category priority chain (server.js 828-831). -/
def categoryOf (t : OsmTags) : String :=
  if truthyOS t.amenity then t.amenity.getD ""
  else if truthyOS t.tourism then t.tourism.getD ""
  else if truthyOS t.shop then "shopping"
  else "place"

/-- The best-effort address derivation (server.js 838-840). -/
def addressOf (t : OsmTags) : String :=
  if truthyOS t.addrStreet then
    t.addrStreet.getD "" ++
      (if truthyOS t.addrHousenumber then " " ++ t.addrHousenumber.getD "" else "")
  else if truthyOS t.addrCity then t.addrCity.getD ""
  else "Near you"

/-- Builds one `Place` from an element (server.js 812-846). `hav` is the
haversine-distance oracle (`hav qlat qlon lat lon`, in km); the coordinate
defaulting mirrors `element.lat || (element.center ? element.center.lat :
latitude)` (JavaScript `||`, so a zero coordinate also falls through). -/
def mkPlace (hav : ℚ → ℚ → ℚ → ℚ → ℚ) (latitude longitude : ℚ) (e : OsmElement) : Place :=
  let t := e.tags.getD {}
  let lat := jsNumOr e.lat (match e.center with | some c => c.1 | none => latitude)
  let lon := jsNumOr e.lon (match e.center with | some c => c.2 | none => longitude)
  { id := toString e.id
    name := t.name.getD ""
    category := categoryOf t
    distance := roundTenth (hav latitude longitude lat lon)
    address := addressOf t
    lat := lat
    lon := lon
    phone := jsStrOr t.phone t.contactPhone
    website := jsStrOr t.website t.contactWebsite
    openingHours := t.openingHours }

/-- The fixed ordered mirror list (server.js 778-782). -/
def overpassUrls : List String :=
  ["https://overpass.kumi.systems/api/interpreter",
   "https://overpass-api.de/api/interpreter",
   "https://maps.mail.ru/osm/tools/overpass/api/interpreter"]

/-- The endpoint loop (server.js 787-802): try each mirror in order, stop at
the first success, remember the last error. Returns the winning response (if
any), the last error message, and the endpoints actually contacted. -/
def tryEndpoints (fetch : String → Except String OverpassResp) :
    List String → Option String → Option OverpassResp × Option String × List String
  | [], lastErr => (none, lastErr, [])
  | u :: rest, lastErr =>
    match fetch u with
    | .ok r => (some r, lastErr, [u])
    | .error e =>
      let t := tryEndpoints fetch rest (some e)
      (t.1, t.2.1, u :: t.2.2)

/-- One JSON response of the places endpoint; a JSON key the payload does not
carry is `none`. -/
structure PlacesResponse where
  status : Nat := 200
  error : Option String := none
  success : Option Bool := none
  places : Option (List Place) := none
  total : Option Nat := none
  message : Option String := none
  details : Option String := none
deriving DecidableEq

/-- The JavaScript sort comparator `(a, b) => a.distance - b.distance`;
`Array.prototype.sort` is a stable sort, so it is modelled by the stable
`List.insertionSort` under the corresponding `≤` relation. -/
def placeLE (a b : Place) : Prop := a.distance ≤ b.distance

instance : DecidableRel placeLE := fun a b => inferInstanceAs (Decidable (_ ≤ _))

instance : IsTotal Place placeLE := ⟨fun a b => le_total a.distance b.distance⟩

instance : IsTrans Place placeLE := ⟨fun _ _ _ h1 h2 => le_trans h1 h2⟩

/-- The `POST /api/places/nearby` handler (server.js 739-877). Validation by
truthiness, the mirror loop, then post-processing: drop unnamed elements,
build places with rounded haversine distances, keep those within
`searchRadius / 1000` km, sort ascending by distance, truncate to 50, report
the list and its length. All mirrors failing throws the last error (or
`'All Overpass API servers failed'`), which the catch block surfaces as a 500.
The Overpass query construction (server.js 750-775) only shapes the request
each mirror receives and is absorbed into `fetch`. Returns the response and
the list of endpoints contacted. -/
def handlePlacesNearby (fetch : String → Except String OverpassResp)
    (hav : ℚ → ℚ → ℚ → ℚ → ℚ) (latitude longitude radius : Option ℚ)
    (type? : Option String) : PlacesResponse × List String :=
  if !(truthyON latitude && truthyON longitude) then
    ({ status := 400, error := some "Missing required parameters: latitude, longitude" }, [])
  else
    let lat0 := latitude.getD 0
    let lon0 := longitude.getD 0
    let searchRadius := jsNumOr radius 5000
    let tried := tryEndpoints fetch overpassUrls none
    match tried.1 with
    | none =>
      ({ status := 500
         error := some "Failed to fetch nearby places"
         message := some ((tried.2.1).getD "All Overpass API servers failed")
         details := some
           "OpenStreetMap Overpass API may be temporarily unavailable. Please try again." },
       tried.2.2)
    | some resp =>
      match resp.elements with
      | some els =>
        let places := ((els.filter hasNameTag).map (mkPlace hav lat0 lon0)).filter
          (fun p => decide (p.distance ≤ searchRadius / 1000))
        let sortedPlaces := (List.insertionSort placeLE places).take 50
        ({ status := 200, success := some true, places := some sortedPlaces,
           total := some sortedPlaces.length }, tried.2.2)
      | none =>
        ({ status := 200, success := some true, places := some [], total := some 0 },
         tried.2.2)

/-! ### Supporting lemmas -/

theorem isEmpty_false_of_ne (s : String) (h : s ≠ "") : s.isEmpty = false := by
  rw [← Bool.not_eq_true, String.isEmpty_iff]
  exact h

theorem ne_empty_of_isEmpty_false (s : String) (h : s.isEmpty = false) : s ≠ "" := by
  intro hs
  rw [hs] at h
  exact absurd h (by decide)

theorem append_ne_empty_left (a b : String) (ha : a ≠ "") : a ++ b ≠ "" := by
  intro h
  rw [String.ext_iff, String.data_append] at h
  rcases List.append_eq_nil.mp h with ⟨h1, _⟩
  exact ha (String.ext_iff.mpr h1)

theorem joinSp_eq_head_append (a : String) (l : List String) :
    ∃ r, joinSp (a :: l) = a ++ r := by
  cases l with
  | nil => exact ⟨"", by simp [joinSp]⟩
  | cons b t => exact ⟨" " ++ joinSp (b :: t), by simp [joinSp, String.append_assoc]⟩

theorem joinSp_ne_empty_of_head (a : String) (l : List String) (ha : a ≠ "") :
    joinSp (a :: l) ≠ "" := by
  obtain ⟨r, hr⟩ := joinSp_eq_head_append a l
  rw [hr]
  exact append_ne_empty_left a r ha

theorem joinSp_ne_empty_of_two (a b : String) (l : List String) :
    joinSp (a :: b :: l) ≠ "" := by
  show a ++ " " ++ joinSp (b :: l) ≠ ""
  intro h
  have hl := congrArg String.length h
  rw [String.length_append, String.length_append] at hl
  have h1 : (" " : String).length = 1 := rfl
  have h0 : ("" : String).length = 0 := rfl
  rw [h1, h0] at hl
  omega

theorem containsSub_joinSp_head (a : String) (l : List String) :
    containsSub (joinSp (a :: l)) a = true := by
  obtain ⟨r, hr⟩ := joinSp_eq_head_append a l
  rw [hr]
  refine decide_eq_true ⟨[], r.data, ?_⟩
  rw [String.data_append]
  simp


theorem mem_ite_singleton (c : Prop) [Decidable c] (t x : String)
    (h : x ∈ if c then [t] else []) : x = t := by
  by_cases hc : c
  · rw [if_pos hc] at h
    exact List.mem_singleton.mp h
  · rw [if_neg hc] at h
    exact absurd h (List.not_mem_nil x)

set_option maxRecDepth 8192 in
theorem offlineBuckets_mem_ne_empty (lower x : String) (hx : x ∈ offlineBuckets lower) :
    x.isEmpty = false := by
  unfold offlineBuckets at hx
  rcases List.mem_append.mp hx with h | h
  rcases List.mem_append.mp h with h | h
  rcases List.mem_append.mp h with h | h
  rcases List.mem_append.mp h with h | h
  rcases List.mem_append.mp h with h | h
  all_goals rw [mem_ite_singleton _ _ _ h]
  all_goals decide

set_option maxRecDepth 8192 in
theorem generateOffline_ne_empty (m : String) : generateOfflineChatbotResponse m ≠ "" := by
  show joinSp (if (offlineBuckets (lowerStr m)).isEmpty = true then [offlineDefaultText]
    else offlineBuckets (lowerStr m)) ≠ ""
  by_cases hc : offlineBuckets (lowerStr m) = []
  · rw [hc]
    show joinSp [offlineDefaultText] ≠ ""
    decide
  · obtain ⟨a, l, hal⟩ := List.exists_cons_of_ne_nil hc
    rw [hal]
    show joinSp (a :: l) ≠ ""
    exact joinSp_ne_empty_of_head a l
      (ne_empty_of_isEmpty_false a
        (offlineBuckets_mem_ne_empty (lowerStr m) a (hal ▸ List.mem_cons_self a l)))

set_option maxRecDepth 8192 in
theorem fallbackMap_values_ne_empty (k : String) (m : List (String × String))
    (h : fallbackTranslationsFor k = some m) :
    ∀ p ∈ m, (p.2.isEmpty = false) := by
  have hall : m.all (fun p => !p.2.isEmpty) = true := by
    unfold fallbackTranslationsFor at h
    split at h
    · injection h with h2
      rw [← h2]
      decide
    · injection h with h2
      rw [← h2]
      decide
    · injection h with h2
      rw [← h2]
      decide
    · cases h
  intro p hp
  have := List.all_eq_true.mp hall p hp
  simpa using this


theorem jsLookup_some_ne_empty (m : List (String × String)) (k v : String)
    (h : jsLookup m k = some v) : v.isEmpty = false := by
  rcases hf : m.find? (fun p => p.1 = k) with _ | p
  · simp only [jsLookup, hf] at h
    exact Option.noConfusion h
  · simp only [jsLookup, hf] at h
    by_cases hv : p.2.isEmpty = true
    · rw [if_pos hv] at h
      exact Option.noConfusion h
    · rw [if_neg hv] at h
      injection h with h2
      rw [← h2]
      exact Bool.eq_false_iff.mpr hv

theorem wordDictLookup_flag_ne_empty (m : List (String × String)) (word : String)
    (hvals : ∀ p ∈ m, (p.2.isEmpty = false))
    (h : (wordTranslate.wordDictLookup m word).2 = true) :
    (wordTranslate.wordDictLookup m word).1.isEmpty = false := by
  rcases hf : m.find? (fun p =>
      containsSub (lowerStr p.1) word || containsSub word (lowerStr p.1)) with _ | p
  · simp only [wordTranslate.wordDictLookup, hf] at h
    simp at h
  · by_cases hk : p.1.isEmpty = true
    · simp only [wordTranslate.wordDictLookup, hf, hk, if_true] at h
      simp at h
    · simp only [wordTranslate.wordDictLookup, hf] at h ⊢
      rw [if_neg hk] at h ⊢
      exact hvals p (List.mem_of_find?_eq_some hf)

theorem wordTranslate_flag_ne_empty (tpats : String → String → Option String)
    (m : List (String × String)) (key word : String)
    (hvals : ∀ p ∈ m, (p.2.isEmpty = false))
    (h : (wordTranslate tpats m key word).2 = true) :
    (wordTranslate tpats m key word).1.isEmpty = false := by
  rcases ht : tpats key word with _ | v
  · simp only [wordTranslate, ht] at h ⊢
    exact wordDictLookup_flag_ne_empty m word hvals h
  · by_cases hv : v.isEmpty = true
    · simp only [wordTranslate, ht, hv, if_true] at h ⊢
      exact wordDictLookup_flag_ne_empty m word hvals h
    · simp only [wordTranslate, ht] at h ⊢
      rw [if_neg hv] at h ⊢
      exact Bool.eq_false_iff.mpr hv

theorem wordPhase_ne_empty (tpats : String → String → Option String)
    (m : List (String × String)) (key text : String) (ht : text ≠ "")
    (hvals : ∀ p ∈ m, (p.2.isEmpty = false)) :
    fallbackTranslate.wordPhase tpats m key text ≠ "" := by
  show (if ((splitWs (lowerStr text)).map (wordTranslate tpats m key)).any (·.2) = true
        then joinSp (((splitWs (lowerStr text)).map (wordTranslate tpats m key)).map (·.1))
        else text) ≠ ""
  rcases hw : splitWs (lowerStr text) with _ | ⟨w, _ | ⟨w2, ws2⟩⟩
  · simpa using ht
  · simp only [List.map_cons, List.map_nil, List.any_cons, List.any_nil, Bool.or_false]
    by_cases hany : (wordTranslate tpats m key w).2 = true
    · rw [if_pos hany]
      show (wordTranslate tpats m key w).1 ≠ ""
      exact ne_empty_of_isEmpty_false _ (wordTranslate_flag_ne_empty tpats m key w hvals hany)
    · rw [if_neg hany]
      exact ht
  · by_cases hany :
      (((w :: w2 :: ws2).map (wordTranslate tpats m key)).any (·.2)) = true
    · rw [if_pos hany]
      simp only [List.map_cons]
      exact joinSp_ne_empty_of_two (wordTranslate tpats m key w).1
        (wordTranslate tpats m key w2).1 ((ws2.map (wordTranslate tpats m key)).map (·.1))
    · rw [if_neg hany]
      exact ht

theorem fallbackTranslate_ne_empty (tpats : String → String → Option String)
    (fromL toL text : String) (ht : text ≠ "") :
    fallbackTranslate tpats fromL toL text ≠ "" := by
  rcases hfor : fallbackTranslationsFor (fromL ++ "-" ++ toL) with _ | m
  · simp only [fallbackTranslate, hfor]
    exact ht
  · have hvals := fallbackMap_values_ne_empty _ m hfor
    rcases hjl : jsLookup m text with _ | v
    · rcases hci : m.find? (fun p => lowerStr p.1 = lowerStr text) with _ | p
      · simp only [fallbackTranslate, hfor, hjl, hci]
        exact wordPhase_ne_empty tpats m _ text ht hvals
      · simp only [fallbackTranslate, hfor, hjl, hci]
        by_cases hk : p.1.isEmpty = true
        · rw [if_pos hk]
          exact wordPhase_ne_empty tpats m _ text ht hvals
        · rw [if_neg hk]
          exact ne_empty_of_isEmpty_false p.2 (hvals p (List.mem_of_find?_eq_some hci))
    · simp only [fallbackTranslate, hfor, hjl]
      exact ne_empty_of_isEmpty_false v (jsLookup_some_ne_empty m text v hjl)

theorem truthyOS_some_of_ne (s : String) (h : s ≠ "") : truthyOS (some s) = true := by
  simp [truthyOS, isEmpty_false_of_ne s h]

theorem truthyOS_false_of_failed_ok (c : Option String) (h : Attempt.failed (.ok c) = true) :
    truthyOS c = false := by
  simpa [Attempt.failed] using h

theorem chatbotCatch_all_fail (env : ChatbotEnv) (msg ctx : String) (ps : Option Nat)
    (now : Nat) (h3 : env.orFree.failed = true) :
    chatbotCatch env msg ctx ps now =
      (chatbotFallbackResponse msg ctx ps,
       (if ps == some 429 then now + CHATBOT_PROVIDER_COOLDOWN_MS else 0),
       if retryableStatus ps && env.openrouterKey then ["openrouter-free"] else []) := by
  unfold chatbotCatch
  by_cases hg : (retryableStatus ps && env.openrouterKey) = true
  · simp only [hg, if_true]
    cases hf : env.orFree with
    | ok c => simp [truthyOS_false_of_failed_ok c (hf ▸ h3)]
    | fail s => simp
  · have hg' : (retryableStatus ps && env.openrouterKey) = false := Bool.eq_false_iff.mpr hg
    simp [hg']

theorem handleChatbot_all_fail (env : ChatbotEnv) (msg : String) (ctx : Option String)
    (now cd : Nat) (hm : msg ≠ "")
    (h1 : env.orPrimary.failed = true) (h2 : env.gemini.failed = true)
    (h3 : env.orFree.failed = true) :
    handleChatbot env (some msg) ctx now cd =
      (chatbotFallbackResponse msg (ctx.getD "travel") env.gemini.errStatus,
       (if env.gemini.errStatus == some 429 then now + CHATBOT_PROVIDER_COOLDOWN_MS else 0),
       (if env.openrouterKey then ["openrouter-primary"] else []) ++ ["gemini"] ++
         (if retryableStatus env.gemini.errStatus && env.openrouterKey then
           ["openrouter-free"] else [])) := by
  have hms := truthyOS_some_of_ne msg hm
  unfold handleChatbot
  simp only [hms, Option.getD_some, Bool.not_true, Bool.false_eq_true, if_false]
  have hcatch := fun ps => chatbotCatch_all_fail env msg (ctx.getD "travel") ps now h3
  cases hk : env.openrouterKey with
  | false =>
    simp only [if_false, Bool.false_eq_true]
    cases hg : env.gemini with
    | ok c =>
      simp [truthyOS_false_of_failed_ok c (hg ▸ h2), hcatch, Attempt.errStatus, hk]
    | fail s => simp [hcatch, Attempt.errStatus, hk]
  | true =>
    simp only [if_true]
    cases hp : env.orPrimary with
    | ok c =>
      simp only [truthyOS_false_of_failed_ok c (hp ▸ h1), Bool.false_eq_true, if_false]
      cases hg : env.gemini with
      | ok c2 =>
        simp [truthyOS_false_of_failed_ok c2 (hg ▸ h2), hcatch, Attempt.errStatus, hk]
      | fail s => simp [hcatch, Attempt.errStatus, hk]
    | fail s0 =>
      cases hg : env.gemini with
      | ok c2 =>
        simp [truthyOS_false_of_failed_ok c2 (hg ▸ h2), hcatch, Attempt.errStatus, hk]
      | fail s => simp [hcatch, Attempt.errStatus, hk]

theorem translateBackups_all_fail (env : TranslateEnv) (t fl tl : String)
    (ps : Option Nat) (now cd : Nat)
    (h2 : env.openrouter.failed = true) (h3 : env.libre.failed = true)
    (h4 : env.mymemory.failed = true) :
    handleTranslate.translateBackups env t fl tl ps now cd =
      translateFallbackResponse env.tpats t fl tl ps now cd := by
  unfold handleTranslate.translateBackups
  have hor : (if env.openrouterKey then
      match env.openrouter with
      | .ok c => if truthyOS c = true then some ((c.getD "").trim) else none
      | .fail _ => none
    else none) = none := by
    cases hk : env.openrouterKey with
    | false => simp
    | true =>
      cases ho : env.openrouter with
      | ok c => simp [truthyOS_false_of_failed_ok c (ho ▸ h2)]
      | fail s => simp
  rw [hor]
  have hlb : (match env.libre with
      | .ok c => if truthyOS c = true then some ((c.getD "").trim) else none
      | .fail _ => none) = none := by
    cases hl : env.libre with
    | ok c => simp [truthyOS_false_of_failed_ok c (hl ▸ h3)]
    | fail s => simp
  rw [hlb]
  have hmm2 : (match env.mymemory with
      | .ok c => if truthyOS c = true then some ((c.getD "").trim) else none
      | .fail _ => none) = none := by
    cases hmm3 : env.mymemory with
    | ok c => simp [truthyOS_false_of_failed_ok c (hmm3 ▸ h4)]
    | fail s => simp
  rw [hmm2]

theorem handleTranslate_all_fail (env : TranslateEnv) (t fl tl : String) (now cd : Nat)
    (ht : t ≠ "") (hfl : fl ≠ "") (htl : tl ≠ "")
    (h1 : env.google.failed = true) (h2 : env.openrouter.failed = true)
    (h3 : env.libre.failed = true) (h4 : env.mymemory.failed = true) :
    handleTranslate env (some t) (some fl) (some tl) now cd =
      translateFallbackResponse env.tpats t fl tl env.google.errStatus now cd := by
  unfold handleTranslate
  simp only [truthyOS_some_of_ne t ht, truthyOS_some_of_ne fl hfl, truthyOS_some_of_ne tl htl,
    Option.getD_some, Bool.and_self, Bool.not_true, Bool.false_eq_true, if_false]
  cases hgo : env.google with
  | ok c =>
    simp only [truthyOS_false_of_failed_ok c (hgo ▸ h1), Bool.false_eq_true, if_false]
    rw [translateBackups_all_fail env t fl tl none now cd h2 h3 h4]
    simp [Attempt.errStatus]
  | fail s =>
    simp only [translateBackups_all_fail env t fl tl s now cd h2 h3 h4, Attempt.errStatus]

theorem storeGet_storeSet_self (s : RateLimitStore) (k : String) (e : RateLimitEntry) :
    storeGet (storeSet s k e) k = some e := by
  unfold storeGet storeSet
  rw [List.find?_cons_of_pos _ (by simp)]
  rfl

theorem rateLimiter_allowed_step (store : RateLimitStore) (key : String) (now c R : Nat)
    (hget : storeGet store key = some ⟨c, R⟩) (hnow : ¬ now > R)
    (hc : c < CHATBOT_MAX_REQUESTS) :
    chatbotRateLimiter store key now =
      (.allowed, storeSet store key ⟨c + 1, R⟩) := by
  unfold chatbotRateLimiter
  simp only [hget, hnow, Bool.false_eq_true, if_false, Nat.not_le_of_lt hc, if_neg]

theorem rateLimiter_denied_step (store : RateLimitStore) (key : String) (now c R : Nat)
    (hget : storeGet store key = some ⟨c, R⟩) (hnow : ¬ now > R)
    (hc : c ≥ CHATBOT_MAX_REQUESTS) :
    chatbotRateLimiter store key now = (.denied (R - now) CHATBOT_WINDOW_MS, store) := by
  unfold chatbotRateLimiter
  simp [hget, hnow, hc]

theorem rateLimiter_fresh_step (store : RateLimitStore) (key : String) (now : Nat)
    (hget : storeGet store key = none) :
    chatbotRateLimiter store key now =
      (.allowed,
       storeSet (storeSet store key ⟨0, now + CHATBOT_WINDOW_MS⟩) key
         ⟨1, now + CHATBOT_WINDOW_MS⟩) := by
  unfold chatbotRateLimiter
  simp [hget, CHATBOT_MAX_REQUESTS]

theorem rateLimiter_reset_step (store : RateLimitStore) (key : String) (now : Nat)
    (e : RateLimitEntry) (hget : storeGet store key = some e) (hnow : now > e.resetAt) :
    chatbotRateLimiter store key now =
      (.allowed,
       storeSet (storeSet store key ⟨0, now + CHATBOT_WINDOW_MS⟩) key
         ⟨1, now + CHATBOT_WINDOW_MS⟩) := by
  unfold chatbotRateLimiter
  simp [hget, hnow, CHATBOT_MAX_REQUESTS]

theorem runCalls_all_allowed (key : String) (ts : List Nat) :
    ∀ (store : RateLimitStore) (c R : Nat), storeGet store key = some ⟨c, R⟩ →
    (∀ t ∈ ts, t ≤ R) → c + ts.length ≤ CHATBOT_MAX_REQUESTS →
    (∀ r ∈ (runCalls ts key store).1, r = RateLimitResult.allowed) ∧
      storeGet (runCalls ts key store).2 key = some ⟨c + ts.length, R⟩ := by
  induction ts with
  | nil =>
    intro store c R hget _ _
    refine ⟨fun r hr => absurd hr (List.not_mem_nil r), ?_⟩
    simpa using hget
  | cons t ts ih =>
    intro store c R hget hts hc
    have hnow : ¬ t > R := Nat.not_lt.mpr (hts t (List.mem_cons_self t ts))
    have hclt : c < CHATBOT_MAX_REQUESTS := by
      have := hc
      simp only [List.length_cons] at this
      omega
    have hstep := rateLimiter_allowed_step store key t c R hget hnow hclt
    have hget' : storeGet (chatbotRateLimiter store key t).2 key = some ⟨c + 1, R⟩ := by
      rw [hstep]
      exact storeGet_storeSet_self store key ⟨c + 1, R⟩
    have hts' : ∀ x ∈ ts, x ≤ R := fun x hx => hts x (List.mem_cons_of_mem t hx)
    have hlen : c + 1 + ts.length ≤ CHATBOT_MAX_REQUESTS := by
      simp only [List.length_cons] at hc
      omega
    obtain ⟨hall, hfin⟩ := ih (chatbotRateLimiter store key t).2 (c + 1) R hget' hts' hlen
    constructor
    · intro r hr
      simp only [runCalls] at hr
      rcases List.mem_cons.mp hr with h | h
      · rw [h, hstep]
      · exact hall r h
    · simp only [runCalls]
      have : c + 1 + ts.length = c + (ts.length + 1) := by omega
      rw [← List.length_cons t ts] at this
      rw [← this]
      exact hfin

/-! ### Claim theorems -/

/-- C1: for every translation request and every chatbot request with the
required text field present, if every networked provider attempt fails, the
operation still returns a success response with `success = true`,
`fallback = true` and a non-empty text field (`translatedText` for
`/api/translate`, `message` for `/api/chatbot`); no unhandled error reaches
the caller (the handlers are total and answer with status 200 here). -/
theorem claim1_all_providers_fail_still_flagged_success
    (tenv : TranslateEnv) (cenv : ChatbotEnv) (t fl tl msg : String) (ctx : Option String)
    (now cd now2 cd2 : Nat)
    (ht : t ≠ "") (hfl : fl ≠ "") (htl : tl ≠ "") (hmsg : msg ≠ "")
    (hg : tenv.google.failed = true) (hor : tenv.openrouter.failed = true)
    (hlb : tenv.libre.failed = true) (hmm : tenv.mymemory.failed = true)
    (hp : cenv.orPrimary.failed = true) (hgem : cenv.gemini.failed = true)
    (hfree : cenv.orFree.failed = true) :
    ((handleTranslate tenv (some t) (some fl) (some tl) now cd).1.status = 200 ∧
     (handleTranslate tenv (some t) (some fl) (some tl) now cd).1.success = some true ∧
     (handleTranslate tenv (some t) (some fl) (some tl) now cd).1.fallback = some true ∧
     ∃ s, (handleTranslate tenv (some t) (some fl) (some tl) now cd).1.translatedText =
        some s ∧ s ≠ "") ∧
    ((handleChatbot cenv (some msg) ctx now2 cd2).1.status = 200 ∧
     (handleChatbot cenv (some msg) ctx now2 cd2).1.success = some true ∧
     (handleChatbot cenv (some msg) ctx now2 cd2).1.fallback = some true ∧
     ∃ s, (handleChatbot cenv (some msg) ctx now2 cd2).1.message = some s ∧ s ≠ "") := by
  have htr := handleTranslate_all_fail tenv t fl tl now cd ht hfl htl hg hor hlb hmm
  have hcb := handleChatbot_all_fail cenv msg ctx now2 cd2 hmsg hp hgem hfree
  constructor
  · refine ⟨?_, ?_, ?_, ?_⟩
    · simp [htr, translateFallbackResponse]
    · simp [htr, translateFallbackResponse]
    · simp [htr, translateFallbackResponse]
    · refine ⟨fallbackTranslate tenv.tpats fl tl t, ?_, ?_⟩
      · simp [htr, translateFallbackResponse]
      · exact fallbackTranslate_ne_empty tenv.tpats fl tl t ht
  · refine ⟨?_, ?_, ?_, ?_⟩
    · simp [hcb, chatbotFallbackResponse]
    · simp [hcb, chatbotFallbackResponse]
    · simp [hcb, chatbotFallbackResponse]
    · refine ⟨generateOfflineChatbotResponse msg, ?_, ?_⟩
      · simp [hcb, chatbotFallbackResponse]
      · exact generateOffline_ne_empty msg

/-- Concrete all-fail translation environment used by the witnesses. -/
def tenvAllFail : TranslateEnv :=
  ⟨.fail none, false, "gpt-5.1-codex-max", .fail none, .fail none, .fail none, fun _ _ => none⟩

/-- Concrete all-fail chatbot environment used by the witnesses. -/
def cenvAllFail : ChatbotEnv :=
  ⟨false, "gpt-5.1-codex-max", .fail none, .fail none, .fail none⟩

theorem claim1_all_providers_fail_still_flagged_success_witness :
    (("Hello" : String) ≠ "" ∧ ("English" : String) ≠ "" ∧ ("Hindi" : String) ≠ "" ∧
     ("hi" : String) ≠ "" ∧
     tenvAllFail.google.failed = true ∧ tenvAllFail.openrouter.failed = true ∧
     tenvAllFail.libre.failed = true ∧ tenvAllFail.mymemory.failed = true ∧
     cenvAllFail.orPrimary.failed = true ∧ cenvAllFail.gemini.failed = true ∧
     cenvAllFail.orFree.failed = true) ∧
    (((handleTranslate tenvAllFail (some "Hello") (some "English") (some "Hindi") 0 0).1.status
        = 200 ∧
      (handleTranslate tenvAllFail (some "Hello") (some "English") (some "Hindi") 0 0).1.success
        = some true ∧
      (handleTranslate tenvAllFail (some "Hello") (some "English") (some "Hindi") 0 0).1.fallback
        = some true ∧
      ∃ s, (handleTranslate tenvAllFail (some "Hello") (some "English") (some "Hindi")
        0 0).1.translatedText = some s ∧ s ≠ "") ∧
     ((handleChatbot cenvAllFail (some "hi") none 0 0).1.status = 200 ∧
      (handleChatbot cenvAllFail (some "hi") none 0 0).1.success = some true ∧
      (handleChatbot cenvAllFail (some "hi") none 0 0).1.fallback = some true ∧
      ∃ s, (handleChatbot cenvAllFail (some "hi") none 0 0).1.message = some s ∧ s ≠ "")) :=
  ⟨⟨by decide, by decide, by decide, by decide, rfl, rfl, rfl, rfl, rfl, rfl, rfl⟩,
   claim1_all_providers_fail_still_flagged_success tenvAllFail cenvAllFail
     "Hello" "English" "Hindi" "hi" none 0 0 0 0
     (by decide) (by decide) (by decide) (by decide) rfl rfl rfl rfl rfl rfl rfl⟩

set_option maxRecDepth 8192 in
theorem fallbackTranslate_hello (tpats : String → String → Option String) :
    fallbackTranslate tpats "English" "Hindi" "Hello" = "नमस्ते" := rfl

/-- C6: when all networked translation providers fail, translating the exact
dictionary phrase `"Hello"` from English to Hindi returns exactly the
dictionary value `"नमस्ते"` as `translatedText`, with `fallback = true`. -/
theorem claim6_translate_hello_hindi_dictionary (tenv : TranslateEnv) (now cd : Nat)
    (hg : tenv.google.failed = true) (hor : tenv.openrouter.failed = true)
    (hlb : tenv.libre.failed = true) (hmm : tenv.mymemory.failed = true) :
    (handleTranslate tenv (some "Hello") (some "English") (some "Hindi") now cd).1.translatedText
      = some "नमस्ते" ∧
    (handleTranslate tenv (some "Hello") (some "English") (some "Hindi") now cd).1.fallback
      = some true ∧
    (handleTranslate tenv (some "Hello") (some "English") (some "Hindi") now cd).1.success
      = some true := by
  have htr := handleTranslate_all_fail tenv "Hello" "English" "Hindi" now cd
    (by decide) (by decide) (by decide) hg hor hlb hmm
  refine ⟨?_, ?_, ?_⟩
  · simp [htr, translateFallbackResponse, fallbackTranslate_hello]
  · simp [htr, translateFallbackResponse]
  · simp [htr, translateFallbackResponse]

theorem claim6_translate_hello_hindi_dictionary_witness :
    (tenvAllFail.google.failed = true ∧ tenvAllFail.openrouter.failed = true ∧
     tenvAllFail.libre.failed = true ∧ tenvAllFail.mymemory.failed = true) ∧
    ((handleTranslate tenvAllFail (some "Hello") (some "English") (some "Hindi")
        0 0).1.translatedText = some "नमस्ते" ∧
     (handleTranslate tenvAllFail (some "Hello") (some "English") (some "Hindi")
        0 0).1.fallback = some true ∧
     (handleTranslate tenvAllFail (some "Hello") (some "English") (some "Hindi")
        0 0).1.success = some true) :=
  ⟨⟨rfl, rfl, rfl, rfl⟩,
   claim6_translate_hello_hindi_dictionary tenvAllFail 0 0 rfl rfl rfl rfl⟩

theorem offlineBuckets_beach_cons (lower : String) (hb : containsSub lower "beach" = true) :
    ∃ l, offlineBuckets lower = beachBucketText :: l := by
  exact ⟨_, by
    unfold offlineBuckets
    rw [hb, if_pos rfl, List.singleton_append]
    simp only [List.cons_append]
    rfl⟩

theorem generateOffline_contains_beach (msg : String)
    (hb : containsSub (lowerStr msg) "beach" = true) :
    containsSub (generateOfflineChatbotResponse msg) beachBucketText = true := by
  obtain ⟨l, hl⟩ := offlineBuckets_beach_cons (lowerStr msg) hb
  show containsSub (joinSp (if (offlineBuckets (lowerStr msg)).isEmpty = true
    then [offlineDefaultText] else offlineBuckets (lowerStr msg))) beachBucketText = true
  rw [hl]
  simp only [List.isEmpty_cons, Bool.false_eq_true, if_false]
  exact containsSub_joinSp_head beachBucketText l

/-- C8: for every chatbot message containing the substring "beach"
(case-insensitively), when all networked providers fail the response carries
the beach-bucket canned text inside `message`, with `fallback = true` and
`provider = "offline-goa-guide"`. -/
theorem claim8_chatbot_beach_offline_fallback (cenv : ChatbotEnv) (msg : String)
    (ctx : Option String) (now cd : Nat) (hmsg : msg ≠ "")
    (hb : containsSub (lowerStr msg) "beach" = true)
    (hp : cenv.orPrimary.failed = true) (hgem : cenv.gemini.failed = true)
    (hfree : cenv.orFree.failed = true) :
    (handleChatbot cenv (some msg) ctx now cd).1.success = some true ∧
    (handleChatbot cenv (some msg) ctx now cd).1.fallback = some true ∧
    (handleChatbot cenv (some msg) ctx now cd).1.provider = some "offline-goa-guide" ∧
    ∃ s, (handleChatbot cenv (some msg) ctx now cd).1.message = some s ∧
      containsSub s beachBucketText = true := by
  have hcb := handleChatbot_all_fail cenv msg ctx now cd hmsg hp hgem hfree
  refine ⟨?_, ?_, ?_, ⟨generateOfflineChatbotResponse msg, ?_, ?_⟩⟩
  · simp [hcb, chatbotFallbackResponse]
  · simp [hcb, chatbotFallbackResponse]
  · simp [hcb, chatbotFallbackResponse]
  · simp [hcb, chatbotFallbackResponse]
  · exact generateOffline_contains_beach msg hb

set_option maxRecDepth 8192 in
theorem claim8_chatbot_beach_offline_fallback_witness :
    (("Which beach is best?" : String) ≠ "" ∧
     containsSub (lowerStr "Which beach is best?") "beach" = true ∧
     cenvAllFail.orPrimary.failed = true ∧ cenvAllFail.gemini.failed = true ∧
     cenvAllFail.orFree.failed = true) ∧
    ((handleChatbot cenvAllFail (some "Which beach is best?") none 0 0).1.success
       = some true ∧
     (handleChatbot cenvAllFail (some "Which beach is best?") none 0 0).1.fallback
       = some true ∧
     (handleChatbot cenvAllFail (some "Which beach is best?") none 0 0).1.provider
       = some "offline-goa-guide" ∧
     ∃ s, (handleChatbot cenvAllFail (some "Which beach is best?") none 0 0).1.message
       = some s ∧ containsSub s beachBucketText = true) :=
  ⟨⟨by decide, by decide, rfl, rfl, rfl⟩,
   claim8_chatbot_beach_offline_fallback cenvAllFail "Which beach is best?" none 0 0
     (by decide) (by decide) rfl rfl rfl⟩

/-- C5: starting from a key with no live entry, `CHATBOT_MAX_REQUESTS` calls
within one window are all admitted; the next call inside the window is denied
with `retryAfterMs = resetAt - now ≤ CHATBOT_WINDOW_MS`; and once the current
time passes the window reset timestamp, a further call from the same key is
admitted again. -/
theorem claim5_rate_limiter_quota_and_window (key : String) (t0 td ta : Nat)
    (ts : List Nat) (store0 : RateLimitStore)
    (h0 : storeGet store0 key = none)
    (hlen : ts.length = CHATBOT_MAX_REQUESTS - 1)
    (hts : ∀ t ∈ ts, t ≤ t0 + CHATBOT_WINDOW_MS)
    (htd1 : t0 ≤ td) (htd2 : td ≤ t0 + CHATBOT_WINDOW_MS)
    (hta : t0 + CHATBOT_WINDOW_MS < ta) :
    (∀ r ∈ (runCalls (t0 :: ts) key store0).1, r = RateLimitResult.allowed) ∧
    (chatbotRateLimiter (runCalls (t0 :: ts) key store0).2 key td).1 =
      RateLimitResult.denied (t0 + CHATBOT_WINDOW_MS - td) CHATBOT_WINDOW_MS ∧
    t0 + CHATBOT_WINDOW_MS - td ≤ CHATBOT_WINDOW_MS ∧
    (chatbotRateLimiter
      (chatbotRateLimiter (runCalls (t0 :: ts) key store0).2 key td).2 key ta).1 =
      RateLimitResult.allowed := by
  have hfirst := rateLimiter_fresh_step store0 key t0 h0
  have hget1 : storeGet (chatbotRateLimiter store0 key t0).2 key =
      some ⟨1, t0 + CHATBOT_WINDOW_MS⟩ := by
    rw [hfirst]
    exact storeGet_storeSet_self _ key _
  have hrest := runCalls_all_allowed key ts (chatbotRateLimiter store0 key t0).2 1
    (t0 + CHATBOT_WINDOW_MS) hget1 hts (by rw [hlen]; decide)
  have hfin : storeGet (runCalls (t0 :: ts) key store0).2 key =
      some ⟨CHATBOT_MAX_REQUESTS, t0 + CHATBOT_WINDOW_MS⟩ := by
    have := hrest.2
    simp only [runCalls]
    rw [hlen] at this
    simpa using this
  have hdeny := rateLimiter_denied_step (runCalls (t0 :: ts) key store0).2 key td
    CHATBOT_MAX_REQUESTS (t0 + CHATBOT_WINDOW_MS) hfin (Nat.not_lt.mpr htd2) (Nat.le_refl _)
  refine ⟨?_, ?_, ?_, ?_⟩
  · intro r hr
    simp only [runCalls] at hr
    rcases List.mem_cons.mp hr with h | h
    · rw [h, hfirst]
    · exact hrest.1 r h
  · rw [hdeny]
  · omega
  · rw [hdeny]
    have := rateLimiter_reset_step (runCalls (t0 :: ts) key store0).2 key ta
      ⟨CHATBOT_MAX_REQUESTS, t0 + CHATBOT_WINDOW_MS⟩ hfin hta
    rw [this]

theorem claim5_rate_limiter_quota_and_window_witness :
    (storeGet [] "1.2.3.4" = none ∧
     (List.replicate 49 10).length = CHATBOT_MAX_REQUESTS - 1 ∧
     (∀ t ∈ List.replicate 49 10, t ≤ 0 + CHATBOT_WINDOW_MS) ∧
     0 ≤ 30000 ∧ 30000 ≤ 0 + CHATBOT_WINDOW_MS ∧ 0 + CHATBOT_WINDOW_MS < 60001) ∧
    ((∀ r ∈ (runCalls (0 :: List.replicate 49 10) "1.2.3.4" []).1,
        r = RateLimitResult.allowed) ∧
     (chatbotRateLimiter (runCalls (0 :: List.replicate 49 10) "1.2.3.4" []).2
        "1.2.3.4" 30000).1 =
       RateLimitResult.denied (0 + CHATBOT_WINDOW_MS - 30000) CHATBOT_WINDOW_MS ∧
     0 + CHATBOT_WINDOW_MS - 30000 ≤ CHATBOT_WINDOW_MS ∧
     (chatbotRateLimiter
       (chatbotRateLimiter (runCalls (0 :: List.replicate 49 10) "1.2.3.4" []).2
         "1.2.3.4" 30000).2 "1.2.3.4" 60001).1 = RateLimitResult.allowed) :=
  ⟨⟨rfl, by decide, by decide, by decide, by decide, by decide⟩,
   claim5_rate_limiter_quota_and_window "1.2.3.4" 0 30000 60001 (List.replicate 49 10) []
     rfl (by decide) (by decide) (by decide) (by decide) (by decide)⟩

/-- C10: the limiter preserves the invariant that every stored count is at
most `CHATBOT_MAX_REQUESTS`; an admitted request increments the key's count by
exactly 1 and only when the previous count (for a live entry) was below the
quota; a denied request leaves the store untouched. -/
theorem claim10_rate_limiter_count_invariant (store : RateLimitStore) (key : String)
    (now : Nat) (hinv : ∀ p ∈ store, p.2.count ≤ CHATBOT_MAX_REQUESTS) :
    (∀ p ∈ (chatbotRateLimiter store key now).2, p.2.count ≤ CHATBOT_MAX_REQUESTS) ∧
    ((chatbotRateLimiter store key now).1 = RateLimitResult.allowed →
      ∃ e, storeGet (chatbotRateLimiter store key now).2 key = some e ∧
        e.count ≤ CHATBOT_MAX_REQUESTS ∧
        (match storeGet store key with
         | some old => if now > old.resetAt then e.count = 1
             else e.count = old.count + 1 ∧ old.count < CHATBOT_MAX_REQUESTS
         | none => e.count = 1)) ∧
    (∀ m w, (chatbotRateLimiter store key now).1 = RateLimitResult.denied m w →
      (chatbotRateLimiter store key now).2 = store) := by
  have hsetinv : ∀ (s : RateLimitStore) (e : RateLimitEntry),
      (∀ p ∈ s, p.2.count ≤ CHATBOT_MAX_REQUESTS) → e.count ≤ CHATBOT_MAX_REQUESTS →
      ∀ p ∈ storeSet s key e, p.2.count ≤ CHATBOT_MAX_REQUESTS := by
    intro s e hs he p hp
    rcases List.mem_cons.mp hp with h | h
    · rw [h]
      exact he
    · exact hs p (List.mem_filter.mp h).1
  have h0le : (0 : Nat) ≤ CHATBOT_MAX_REQUESTS := by decide
  have h1le : (1 : Nat) ≤ CHATBOT_MAX_REQUESTS := by decide
  rcases hget : storeGet store key with _ | e
  · have hstep := rateLimiter_fresh_step store key now hget
    refine ⟨?_, ?_, ?_⟩
    · rw [hstep]
      exact hsetinv _ _ (hsetinv _ _ hinv h0le) h1le
    · intro _
      refine ⟨⟨1, now + CHATBOT_WINDOW_MS⟩, ?_, h1le, by simp [hget]⟩
      rw [hstep]
      exact storeGet_storeSet_self _ key _
    · intro m w hd
      rw [hstep] at hd
      exact absurd hd (by simp)
  · by_cases hnow : now > e.resetAt
    · have hstep := rateLimiter_reset_step store key now e hget hnow
      refine ⟨?_, ?_, ?_⟩
      · rw [hstep]
        exact hsetinv _ _ (hsetinv _ _ hinv h0le) h1le
      · intro _
        refine ⟨⟨1, now + CHATBOT_WINDOW_MS⟩, ?_, h1le, by simp [hget, hnow]⟩
        rw [hstep]
        exact storeGet_storeSet_self _ key _
      · intro m w hd
        rw [hstep] at hd
        exact absurd hd (by simp)
    · by_cases hc : e.count ≥ CHATBOT_MAX_REQUESTS
      · have hstep := rateLimiter_denied_step store key now e.count e.resetAt hget hnow hc
        refine ⟨?_, ?_, ?_⟩
        · rw [hstep]
          exact hinv
        · intro ha
          rw [hstep] at ha
          exact absurd ha (by simp)
        · intro m w _
          rw [hstep]
      · have hc' : e.count < CHATBOT_MAX_REQUESTS := Nat.not_le.mp hc
        have hstep := rateLimiter_allowed_step store key now e.count e.resetAt hget hnow hc'
        refine ⟨?_, ?_, ?_⟩
        · rw [hstep]
          exact hsetinv _ _ hinv (by show e.count + 1 ≤ CHATBOT_MAX_REQUESTS; omega)
        · intro _
          refine ⟨⟨e.count + 1, e.resetAt⟩, ?_,
            by show e.count + 1 ≤ CHATBOT_MAX_REQUESTS; omega, ?_⟩
          · rw [hstep]
            exact storeGet_storeSet_self _ key _
          · simp only [hget]
            rw [if_neg hnow]
            exact ⟨by trivial, hc'⟩
        · intro m w hd
          rw [hstep] at hd
          exact absurd hd (by simp)

theorem claim10_rate_limiter_count_invariant_witness :
    (∀ p ∈ [("a", RateLimitEntry.mk 2 100)], p.2.count ≤ CHATBOT_MAX_REQUESTS) ∧
    ((∀ p ∈ (chatbotRateLimiter [("a", RateLimitEntry.mk 2 100)] "a" 50).2,
        p.2.count ≤ CHATBOT_MAX_REQUESTS) ∧
     ((chatbotRateLimiter [("a", RateLimitEntry.mk 2 100)] "a" 50).1 =
        RateLimitResult.allowed →
       ∃ e, storeGet (chatbotRateLimiter [("a", RateLimitEntry.mk 2 100)] "a" 50).2 "a" =
          some e ∧ e.count ≤ CHATBOT_MAX_REQUESTS ∧
         (match storeGet [("a", RateLimitEntry.mk 2 100)] "a" with
          | some old => if 50 > old.resetAt then e.count = 1
              else e.count = old.count + 1 ∧ old.count < CHATBOT_MAX_REQUESTS
          | none => e.count = 1)) ∧
     (∀ m w, (chatbotRateLimiter [("a", RateLimitEntry.mk 2 100)] "a" 50).1 =
        RateLimitResult.denied m w →
       (chatbotRateLimiter [("a", RateLimitEntry.mk 2 100)] "a" 50).2 =
         [("a", RateLimitEntry.mk 2 100)])) :=
  ⟨by decide,
   claim10_rate_limiter_count_invariant [("a", RateLimitEntry.mk 2 100)] "a" 50 (by decide)⟩

theorem handleChatbot_status_cases (env : ChatbotEnv) (message ctx : Option String)
    (now cd : Nat) :
    (handleChatbot env message ctx now cd).1.status = 200 ∨
    (handleChatbot env message ctx now cd).1.status = 400 := by
  unfold handleChatbot chatbotCatch
  repeat' split
  all_goals simp [chatbotSuccessResponse, chatbotFallbackResponse]

/-- The all-fail chatbot environment of the C3 scenario: no OpenRouter key and
Gemini failing with a 503. -/
def cenvGemini503 : ChatbotEnv :=
  ⟨false, "gpt-5.1-codex-max", .fail none, .fail (some 503), .fail none⟩

/-- C2 (code bug): the `/api/chatbot` route is registered without the
`chatbotRateLimiter` middleware (server.js 583, comment "removed rate limiter
for testing"), so no chatbot request is ever answered 429 and the rate-limit
store is never consulted or modified — for every environment and store, the
route leaves the store unchanged and returns a non-429 status. Concretely,
for a client whose entry already holds `CHATBOT_MAX_REQUESTS` requests inside
a live window, the request is still served (status 200) and a provider is
contacted, although `chatbotRateLimiter` itself would have denied it with the
structured 429. -/
theorem claim2_chatbot_route_bypasses_rate_limiter :
    (∀ (env : ChatbotEnv) (message ctx : Option String) (now cd : Nat)
        (store : RateLimitStore),
      (chatbotRoute env message ctx now cd store).2.2.1 = store ∧
      (chatbotRoute env message ctx now cd store).1.status ≠ 429) ∧
    ((chatbotRoute cenvGemini503 (some "hi") none 1000 0
        [("1.2.3.4", ⟨50, 60000⟩)]).1.status = 200 ∧
     (chatbotRoute cenvGemini503 (some "hi") none 1000 0
        [("1.2.3.4", ⟨50, 60000⟩)]).2.2.1 = [("1.2.3.4", ⟨50, 60000⟩)] ∧
     (chatbotRoute cenvGemini503 (some "hi") none 1000 0
        [("1.2.3.4", ⟨50, 60000⟩)]).2.2.2 = ["gemini"] ∧
     (chatbotRateLimiter [("1.2.3.4", ⟨50, 60000⟩)] "1.2.3.4" 1000).1 =
       RateLimitResult.denied 59000 CHATBOT_WINDOW_MS) := by
  constructor
  · intro env message ctx now cd store
    refine ⟨rfl, ?_⟩
    rcases handleChatbot_status_cases env message ctx now cd with h | h <;>
      · show (handleChatbot env message ctx now cd).1.status ≠ 429
        omega
  · exact ⟨rfl, rfl, rfl, rfl⟩

/-- C3 (code bug): the chatbot handler does not honor an active provider
cooldown: at time 500 with `chatbotProviderCooldownUntil = 1000` (cooldown
active), the handler still performs a networked Gemini call, and it resets the
cooldown timestamp to 0 (server.js 594, comments "Reset cooldown for testing"
and "Cooldown check removed - always try API"). -/
theorem claim3_chatbot_contacts_provider_during_cooldown :
    500 < 1000 ∧
    (handleChatbot cenvGemini503 (some "hi") none 500 1000).2.2 = ["gemini"] ∧
    (handleChatbot cenvGemini503 (some "hi") none 500 1000).2.1 = 0 ∧
    (handleChatbot cenvGemini503 (some "hi") none 500 1000).1.status = 200 :=
  ⟨by omega, rfl, rfl, rfl⟩

/-- C9 (implicit behaviour): a place-discovery request whose latitude or
longitude is exactly 0 is rejected with the 400
"Missing required parameters" error — presence is tested by JavaScript
truthiness (`!latitude || !longitude`), under which the number 0 is falsy —
and no provider endpoint is contacted (the contacted list is empty and the
result does not depend on `fetch`). -/
theorem claim9_places_zero_coordinate_rejected
    (fetch : String → Except String OverpassResp) (hav : ℚ → ℚ → ℚ → ℚ → ℚ)
    (latitude longitude radius : Option ℚ) (ty : Option String)
    (h : latitude = some 0 ∨ longitude = some 0) :
    handlePlacesNearby fetch hav latitude longitude radius ty =
      ({ status := 400, error := some "Missing required parameters: latitude, longitude" },
       []) := by
  rcases h with h | h <;> subst h <;> unfold handlePlacesNearby <;> simp [truthyON]

/-- Fetch oracle on which every mirror fails. -/
def fetchAllDown : String → Except String OverpassResp := fun _ => .error "down"

/-- Trivial haversine oracle for witnesses. -/
def havZero : ℚ → ℚ → ℚ → ℚ → ℚ := fun _ _ _ _ => 0

theorem claim9_places_zero_coordinate_rejected_witness :
    ((some (0 : ℚ) = some 0 ∨ (some (7 : ℚ) : Option ℚ) = some 0) ∧
     handlePlacesNearby fetchAllDown havZero (some 0) (some 7) none none =
       ({ status := 400,
          error := some "Missing required parameters: latitude, longitude" }, [])) :=
  ⟨Or.inl rfl,
   claim9_places_zero_coordinate_rejected fetchAllDown havZero (some 0) (some 7) none none
     (Or.inl rfl)⟩

/-- C7: when every mirror endpoint in the fixed ordered list fails, the caller
receives a 500 whose body is the distinguishable all-endpoints-failed payload:
`error = "Failed to fetch nearby places"`, `message` = the last endpoint's
error, and the Overpass-specific `details` string — distinct from the
last-resort handler's "Internal server error" and from the validation error,
and carrying no `success`/`places` keys (not a silently empty result). All
three endpoints were contacted. -/
theorem claim7_places_all_endpoints_fail_500
    (fetch : String → Except String OverpassResp) (hav : ℚ → ℚ → ℚ → ℚ → ℚ)
    (latitude longitude radius : Option ℚ) (ty : Option String)
    (hlat : truthyON latitude = true) (hlon : truthyON longitude = true)
    (e1 e2 e3 : String)
    (h1 : fetch "https://overpass.kumi.systems/api/interpreter" = .error e1)
    (h2 : fetch "https://overpass-api.de/api/interpreter" = .error e2)
    (h3 : fetch "https://maps.mail.ru/osm/tools/overpass/api/interpreter" = .error e3) :
    (handlePlacesNearby fetch hav latitude longitude radius ty).1 =
      { status := 500
        error := some "Failed to fetch nearby places"
        message := some e3
        details := some
          "OpenStreetMap Overpass API may be temporarily unavailable. Please try again." } ∧
    (handlePlacesNearby fetch hav latitude longitude radius ty).2 = overpassUrls ∧
    (handlePlacesNearby fetch hav latitude longitude radius ty).1.success = none ∧
    (handlePlacesNearby fetch hav latitude longitude radius ty).1.places = none ∧
    (handlePlacesNearby fetch hav latitude longitude radius ty).1.error ≠
      some "Internal server error" ∧
    (handlePlacesNearby fetch hav latitude longitude radius ty).1.error ≠
      some "Missing required parameters: latitude, longitude" := by
  have htry : tryEndpoints fetch overpassUrls none =
      (none, some e3, overpassUrls) := by
    unfold overpassUrls
    simp [tryEndpoints, h1, h2, h3]
  have hmain : handlePlacesNearby fetch hav latitude longitude radius ty =
      ({ status := 500
         error := some "Failed to fetch nearby places"
         message := some e3
         details := some
           "OpenStreetMap Overpass API may be temporarily unavailable. Please try again." },
       overpassUrls) := by
    unfold handlePlacesNearby
    simp [hlat, hlon, htry]
  refine ⟨?_, ?_, ?_, ?_, ?_, ?_⟩ <;> rw [hmain] <;> simp

theorem claim7_places_all_endpoints_fail_500_witness :
    (truthyON (some (10 : ℚ)) = true ∧ truthyON (some (20 : ℚ)) = true ∧
     fetchAllDown "https://overpass.kumi.systems/api/interpreter" = .error "down" ∧
     fetchAllDown "https://overpass-api.de/api/interpreter" = .error "down" ∧
     fetchAllDown "https://maps.mail.ru/osm/tools/overpass/api/interpreter" =
       .error "down") ∧
    ((handlePlacesNearby fetchAllDown havZero (some 10) (some 20) none none).1 =
      { status := 500
        error := some "Failed to fetch nearby places"
        message := some "down"
        details := some
          "OpenStreetMap Overpass API may be temporarily unavailable. Please try again." } ∧
     (handlePlacesNearby fetchAllDown havZero (some 10) (some 20) none none).2 =
       overpassUrls ∧
     (handlePlacesNearby fetchAllDown havZero (some 10) (some 20) none none).1.success =
       none ∧
     (handlePlacesNearby fetchAllDown havZero (some 10) (some 20) none none).1.places =
       none ∧
     (handlePlacesNearby fetchAllDown havZero (some 10) (some 20) none none).1.error ≠
       some "Internal server error" ∧
     (handlePlacesNearby fetchAllDown havZero (some 10) (some 20) none none).1.error ≠
       some "Missing required parameters: latitude, longitude") :=
  ⟨⟨by decide, by decide, rfl, rfl, rfl⟩,
   claim7_places_all_endpoints_fail_500 fetchAllDown havZero (some 10) (some 20) none none
     (by decide) (by decide) "down" "down" "down" rfl rfl rfl⟩

/-- C4: whenever the place-discovery handler answers with a `places` list and
a `total`, every returned place's `distance` is at most the requested search
radius (in metres, `radius || 5000`) divided by 1000, the list is sorted
ascending by distance, its length is at most 50, and `total` equals that
length. -/
theorem claim4_places_results_bounded
    (fetch : String → Except String OverpassResp) (hav : ℚ → ℚ → ℚ → ℚ → ℚ)
    (latitude longitude radius : Option ℚ) (ty : Option String)
    (ps : List Place) (n : Nat)
    (hps : (handlePlacesNearby fetch hav latitude longitude radius ty).1.places = some ps)
    (hn : (handlePlacesNearby fetch hav latitude longitude radius ty).1.total = some n) :
    (∀ p ∈ ps, p.distance ≤ jsNumOr radius 5000 / 1000) ∧
    List.Sorted placeLE ps ∧ ps.length ≤ 50 ∧ n = ps.length := by
  unfold handlePlacesNearby at hps hn
  by_cases hval : (!(truthyON latitude && truthyON longitude)) = true
  · rw [if_pos hval] at hps
    simp at hps
  · rw [if_neg hval] at hps hn
    rcases htry : tryEndpoints fetch overpassUrls none with ⟨resp?, rest⟩
    simp only [htry] at hps hn
    rcases resp? with _ | resp
    · simp at hps
    · rcases hels : resp.elements with _ | els
      · simp only [hels, Option.some.injEq] at hps hn
        subst hps
        subst hn
        refine ⟨fun p hp => absurd hp (List.not_mem_nil p), List.sorted_nil, by simp, rfl⟩
      · simp only [hels, Option.some.injEq] at hps hn
        subst hps
        subst hn
        set places0 := ((els.filter hasNameTag).map
            (mkPlace hav (latitude.getD 0) (longitude.getD 0))).filter
          (fun p => decide (p.distance ≤ jsNumOr radius 5000 / 1000)) with hplaces0
        refine ⟨?_, ?_, ?_, rfl⟩
        · intro p hp
          have hp1 : p ∈ List.insertionSort placeLE places0 :=
            (List.take_sublist 50 _).subset hp
          have hp2 : p ∈ places0 := (List.perm_insertionSort placeLE places0).mem_iff.mp hp1
          have := (List.mem_filter.mp hp2).2
          exact of_decide_eq_true this
        · exact List.Pairwise.sublist (List.take_sublist 50 _)
            (List.sorted_insertionSort placeLE places0)
        · exact List.length_take_le 50 _

/-- Fetch oracle whose first mirror answers with an empty element array. -/
def fetchEmptyElements : String → Except String OverpassResp := fun u =>
  if u = "https://overpass.kumi.systems/api/interpreter" then .ok ⟨some []⟩ else .error "down"

set_option maxRecDepth 8192 in
theorem claim4_places_results_bounded_witness :
    ((handlePlacesNearby fetchEmptyElements havZero (some 10) (some 20) (some 5000)
        none).1.places = some [] ∧
     (handlePlacesNearby fetchEmptyElements havZero (some 10) (some 20) (some 5000)
        none).1.total = some 0) ∧
    ((∀ p ∈ ([] : List Place), p.distance ≤ jsNumOr (some 5000) 5000 / 1000) ∧
     List.Sorted placeLE ([] : List Place) ∧ ([] : List Place).length ≤ 50 ∧
     0 = ([] : List Place).length) :=
  ⟨⟨rfl, rfl⟩,
   claim4_places_results_bounded fetchEmptyElements havZero (some 10) (some 20) (some 5000)
     none [] 0 rfl rfl⟩
